import Mathlib

/-!
Verification of the Safety-Event Pipeline of the smart-emergency-app server.

The development shallowly embeds the decision logic of the repository:

* `distanceInMeters` — the haversine great-circle distance of
  `src/routes/location.js` (`distanceInMeters`), over the real numbers as the
  idealised semantics of the JavaScript float computation.
* `assess` / `assessLoop` — the zone-matching loop of the
  `POST /api/location/assess` handler, generic over the distance function and
  the ordered number type carrying distances, exactly mirroring the source:
  matched zones are appended in input order when `d <= z.radiusMeters`, the
  nearest zone is tracked with a strict `d < nearestDistance` comparison, and
  the aggregate risk level is computed by the two `some`-scans over the
  matched list.
* `fallbackZones` / `assessHandler` — the handler including the empty-store
  demo-zone fallback and the `typeof ... !== "number"` validation.
* `sosPipeline` — the `POST /api/emergency/sos` handler of
  `src/routes/emergency.js`, with the outcomes of the external calls
  (Mongo save, FCM send) passed in as oracle parameters and the performed
  side effects recorded in the result.
-/

namespace SmartEmergency

/-- Risk severity levels of a danger zone (`models/DangerZone.js` enum). -/
inductive Risk where
  | SAFE
  | CAUTION
  | DANGER
  deriving DecidableEq, Repr

/-- Numeric severity rank: DANGER > CAUTION > SAFE (spec §GLOSSARY). -/
def Risk.sev : Risk → Nat
  | .SAFE => 0
  | .CAUTION => 1
  | .DANGER => 2

/-- Severity maximum of two risk levels (spec-side notion, used to state the
`riskLevel` aggregation invariant). -/
def rmax (a b : Risk) : Risk := if a.sev ≤ b.sev then b else a

/-- Modelled from the spec: "maximum severity (DANGER > CAUTION > SAFE) among
`matchedZones`; if `matchedZones` is empty, `riskLevel = SAFE`". -/
def maxSeverity (l : List Risk) : Risk := l.foldr rmax .SAFE

/-- A risk zone as consumed by the assess handler (`models/DangerZone.js`
document shape restricted to the fields the pipeline reads; the handler only
ever receives the `active: true` subset from the store query).  The numeric
type `α` carries coordinates, radii and distances. -/
structure Zone (α : Type) where
  id : String
  name : String
  center : α × α
  radiusMeters : α
  riskLevel : Risk
  description : String
  deriving DecidableEq

/-- An entry of the handler's `activeZones` output list: a matched zone
paired with its computed distance. -/
structure Matched (α : Type) where
  zone : Zone α
  distanceMeters : α
  deriving DecidableEq

/-- The assessment assembled by the handler: aggregate risk level, matched
zones in input order, and the nearest zone (over all zones) with its
distance. -/
structure Assessment (α : Type) where
  riskLevel : Risk
  activeZones : List (Matched α)
  nearestZone : Option (Zone α × α)

/-- The `for (const z of zones)` loop of the assess handler
(`src/routes/location.js` lines 58-86): accumulates matched zones (inclusive
boundary `d <= z.radiusMeters`, input order) and tracks the nearest zone with
the strict comparison `d < nearestDistance` (initial `Infinity` modelled by
the `none` accumulator, which always accepts). -/
def assessLoop {α : Type} [LinearOrder α] (D : α × α → α × α → α) (p : α × α) :
    List (Zone α) → List (Matched α) → Option (Zone α × α) →
      List (Matched α) × Option (Zone α × α)
  | [], acc, near => (acc, near)
  | z :: rest, acc, near =>
    let d := D p z.center
    let acc2 := if d ≤ z.radiusMeters then acc ++ [⟨z, d⟩] else acc
    let near2 := match near with
      | none => some (z, d)
      | some (nz, nd) => if d < nd then some (z, d) else some (nz, nd)
    assessLoop D p rest acc2 near2

/-- The aggregate-risk computation of the handler (lines 88-94): DANGER if
some matched zone is DANGER, else CAUTION if some matched zone is CAUTION,
else SAFE. -/
def aggregate {α : Type} (ms : List (Matched α)) : Risk :=
  if ms.any fun m => m.zone.riskLevel = .DANGER then .DANGER
  else if ms.any fun m => m.zone.riskLevel = .CAUTION then .CAUTION
  else .SAFE

/-- The risk engine of the assess handler: run the matching loop and package
`riskLevel`, `activeZones` (the matched list) and `nearestZone`. -/
def assess {α : Type} [LinearOrder α] (D : α × α → α × α → α) (p : α × α)
    (zones : List (Zone α)) : Assessment α :=
  let r := assessLoop D p zones [] none
  { riskLevel := aggregate r.1, activeZones := r.1, nearestZone := r.2 }

/-- Point-in-zone test (spec §4.1 `isWithin`): distance from the point to the
zone center is at most the zone radius; the boundary is inclusive. -/
def isWithin {α : Type} [LinearOrder α] (D : α × α → α × α → α) (p : α × α)
    (z : Zone α) : Bool :=
  decide (D p z.center ≤ z.radiusMeters)

/-- Spec-side description of the matched-zones output: the zones containing
the point, in input order, each paired with its computed distance. -/
def matchedSpec {α : Type} [LinearOrder α] (D : α × α → α × α → α) (p : α × α)
    (zones : List (Zone α)) : List (Matched α) :=
  (zones.filter fun z => isWithin D p z).map fun z => ⟨z, D p z.center⟩

noncomputable section Geo

/-- Degrees to radians: `(v * Math.PI) / 180` (the `toRad` helper of
`src/routes/location.js`). -/
def toRad (v : ℝ) : ℝ := v * Real.pi / 180

/-- `Math.atan2 y x` on the non-negative quadrant in which the haversine
computation invokes it (both arguments are square roots, hence
non-negative): `arctan (y / x)` for `x ≠ 0`, `π / 2` on the positive `y`
axis and `0` at the origin. -/
def atan2nn (y x : ℝ) : ℝ :=
  if x = 0 then (if y = 0 then 0 else Real.pi / 2) else Real.arctan (y / x)

/-- The haversine intermediate value `a` of `distanceInMeters`
(`src/routes/location.js` lines 15-19). -/
def havA (lat1 lng1 lat2 lng2 : ℝ) : ℝ :=
  Real.sin (toRad (lat2 - lat1) / 2) ^ 2
    + Real.cos (toRad lat1) * Real.cos (toRad lat2)
      * Real.sin (toRad (lng2 - lng1) / 2) ^ 2

/-- The haversine great-circle distance in meters of
`src/routes/location.js` (`distanceInMeters`, lines 9-23), over ℝ as the
idealised semantics of the float computation; Earth radius 6371000 m. -/
def distanceInMeters (lat1 lng1 lat2 lng2 : ℝ) : ℝ :=
  let R : ℝ := 6371000
  let dLat := toRad (lat2 - lat1)
  let dLng := toRad (lng2 - lng1)
  let a := Real.sin (dLat / 2) ^ 2
    + Real.cos (toRad lat1) * Real.cos (toRad lat2) * Real.sin (dLng / 2) ^ 2
  let c := 2 * atan2nn (Real.sqrt a) (Real.sqrt (1 - a))
  R * c

/-- The distance function on coordinate pairs, as the assess handler applies
it (`latitude, longitude, z.center.lat, z.center.lng`). -/
def distCoord (p q : ℝ × ℝ) : ℝ := distanceInMeters p.1 p.2 q.1 q.2

end Geo

/-- The request body of `POST /api/emergency/sos` (`src/routes/emergency.js`).
`none` models an absent field — and, for the coordinates, any non-number
JSON value, since the handler's only validation is
`typeof latitude !== "number"`. -/
structure SosBody where
  latitude : Option ℚ
  longitude : Option ℚ
  timestamp : Option String
  userId : Option String
  evidenceUrl : Option String
  mode : Option String
  source : Option String
  deriving DecidableEq

/-- The user document fields the SOS handler selects
(`name email phone emergencyContacts pushToken`, `models/User.js`). -/
structure UserRec where
  name : Option String
  email : Option String
  phone : Option String
  emergencyContacts : List (String × String × Option String)
  pushToken : Option String
  deriving DecidableEq

/-- The persisted emergency document (the fields `routes/emergency.js`
writes into `new Emergency({...})`). -/
structure EmergencyDoc where
  user : Option String
  location : ℚ × ℚ
  evidenceUrl : Option String
  triggeredAt : String
  source : String
  mode : String
  deriving DecidableEq

/-- JavaScript string truthiness: an absent value and the empty string are
falsy. -/
def truthyStr : Option String → Option String
  | none => none
  | some s => if s = "" then none else some s

/-- JavaScript `a || b` on optional strings (`null` result modelled as
`none`). -/
def jsOrStr (a b : Option String) : Option String :=
  match truthyStr a with
  | some s => some s
  | none => truthyStr b

/-- The `new Emergency({...})` document the SOS handler constructs: user
attribution is `req.user?.id || userId || null`, location is the raw
coordinate pair, with the `|| default` fallbacks of the source. -/
def mkEmergencyDoc (body : SosBody) (authId : Option String) (lat lng : ℚ)
    (now : String) : EmergencyDoc :=
  { user := jsOrStr authId body.userId
    location := (lat, lng)
    evidenceUrl := truthyStr body.evidenceUrl
    triggeredAt := (truthyStr body.timestamp).getD now
    source := (truthyStr body.source).getD "MOBILE_SOS"
    mode := (truthyStr body.mode).getD "NORMAL" }

/-- Outcome of the notification step (spec §4.5). -/
inductive NotifyOutcome where
  | sent
  | skippedNoTarget
  | failed (reason : String)
  deriving DecidableEq

/-- The `data` object of the handler's 200 response. -/
structure SosData where
  id : String
  latitude : ℚ
  longitude : ℚ
  timestamp : String
  userId : Option String
  evidenceUrl : Option String
  mode : String
  source : String
  deriving DecidableEq

/-- The HTTP response of the SOS handler. -/
inductive SosResponse where
  | badRequest (msg : String)
  | serverError (msg : String)
  | okSos (msg : String) (data : SosData)
  deriving DecidableEq

/-- The observable outcome of one SOS request: response, status code, the
durably saved document (when the save succeeded), whether an FCM dispatch
was attempted, and the notifier outcome. -/
structure SosResult where
  response : SosResponse
  statusCode : Nat
  savedEvent : Option EmergencyDoc
  pushAttempted : Bool
  notify : Option NotifyOutcome
  deriving DecidableEq

/-- The `POST /api/emergency/sos` handler of `src/routes/emergency.js`, with
the outcomes of the external calls supplied as oracles: `save` is the result
of `newEmergency.save()` (`ok` carries the assigned `_id`), `push` the
result of `admin.messaging().send(...)`, `adminReady` the
`admin?.apps?.length` guard and `now` the server clock.  A save failure is
caught by the outer try/catch (500 response; the push code is never
reached); a push failure is caught by the inner try/catch and absorbed. -/
def sosPipeline (body : SosBody) (authId : Option String)
    (userRec : Option UserRec) (adminReady : Bool)
    (save : Except String String) (push : Except String Unit)
    (now : String) : SosResult :=
  match body.latitude, body.longitude with
  | some latitude, some longitude =>
    match save with
    | .error _ =>
      { response := .serverError "Failed to process SOS", statusCode := 500,
        savedEvent := none, pushAttempted := false, notify := none }
    | .ok eid =>
      let doc := mkEmergencyDoc body authId latitude longitude now
      let target := userRec.bind fun u => truthyStr u.pushToken
      let push2 : Bool × NotifyOutcome :=
        match target, adminReady with
        | some _, true =>
          match push with
          | .ok _ => (true, .sent)
          | .error reason => (true, .failed reason)
        | _, _ => (false, .skippedNoTarget)
      { response := .okSos "SOS received successfully"
          { id := eid, latitude := latitude, longitude := longitude,
            timestamp := (truthyStr body.timestamp).getD now,
            userId := jsOrStr authId body.userId,
            evidenceUrl := truthyStr body.evidenceUrl,
            mode := (truthyStr body.mode).getD "NORMAL",
            source := (truthyStr body.source).getD "MOBILE_SOS" },
        statusCode := 200, savedEvent := some doc,
        pushAttempted := push2.1, notify := some push2.2 }
  | _, _ =>
    { response := .badRequest "latitude and longitude (number) are required",
      statusCode := 400, savedEvent := none, pushAttempted := false,
      notify := none }

/-- The `data.id` of a success response, if any. -/
def SosResult.responseId (r : SosResult) : Option String :=
  match r.response with
  | .okSos _ d => some d.id
  | _ => none

/-- The request body of `POST /api/location/assess`; `none` models an
absent or non-number value (the handler's `typeof ... !== "number"`
check). -/
structure AssessBody where
  latitude : Option ℝ
  longitude : Option ℝ

/-- The response of the assess handler. -/
inductive AssessResponse where
  | badRequest (msg : String)
  | ok (riskLevel : Risk) (activeZones : List (Matched ℝ))
      (nearestZone : Option (Zone ℝ × ℝ)) (userLocation : ℝ × ℝ)

/-- The synthetic demonstration zone the handler substitutes when the zone
store is empty (`src/routes/location.js` lines 43-56). -/
noncomputable def demoZone (latitude longitude : ℝ) : Zone ℝ :=
  { id := "demo-zone-1", name := "Demo High-Risk Area",
    center := (latitude + 0.005, longitude + 0.005), radiusMeters := 400,
    riskLevel := .DANGER,
    description := "Example zone. Replace this with real data in MongoDB." }

/-- The empty-store fallback: `if (!zones.length)` substitute the demo
zone. -/
noncomputable def fallbackZones (latitude longitude : ℝ)
    (zones : List (Zone ℝ)) : List (Zone ℝ) :=
  match zones with
  | [] => [demoZone latitude longitude]
  | _ => zones

/-- The `POST /api/location/assess` handler (`src/routes/location.js`):
number check, store snapshot with empty-store fallback, matching loop, and
the JSON answer with `riskLevel`, `activeZones`, `nearestZone` and the
echoed user location. -/
noncomputable def assessHandler (zones : List (Zone ℝ)) (body : AssessBody) :
    AssessResponse :=
  match body.latitude, body.longitude with
  | some latitude, some longitude =>
    let zs := fallbackZones latitude longitude zones
    let r := assess distCoord (latitude, longitude) zs
    .ok r.riskLevel r.activeZones r.nearestZone (latitude, longitude)
  | _, _ => .badRequest "latitude and longitude (numbers) are required"

/-- Does the response carry a non-null `nearestZone`? -/
def AssessResponse.nearestIsSome : AssessResponse → Bool
  | .ok _ _ (some _) _ => true
  | _ => false

/-- A concrete valid SOS body, used to instantiate theorems at concrete
inputs. -/
def wbody : SosBody := ⟨some 1, some 2, none, none, none, none, none⟩

/-- A concrete SOS body with a missing (non-number) latitude. -/
def wbodyBad : SosBody := ⟨none, some 2, none, none, none, none, none⟩

/-- A concrete SOS body with an out-of-range numeric latitude. -/
def wbodyFar : SosBody := ⟨some 1000, some 0, none, none, none, none, none⟩

/-- A concrete user record without a push token. -/
def wuser : UserRec := ⟨some "Ann", none, none, [], none⟩

theorem assessLoop_fst {α : Type} [LinearOrder α] (D : α × α → α × α → α)
    (p : α × α) :
    ∀ (zs : List (Zone α)) (acc : List (Matched α)) (near : Option (Zone α × α)),
      (assessLoop D p zs acc near).1 = acc ++ matchedSpec D p zs := by
  intro zs
  induction zs with
  | nil => intro acc near; simp [assessLoop, matchedSpec]
  | cons z rest ih =>
    intro acc near
    by_cases hd : D p z.center ≤ z.radiusMeters <;>
      simp [assessLoop, hd, ih, matchedSpec, isWithin, List.filter_cons]

theorem assessLoop_snd {α : Type} [LinearOrder α] (D : α × α → α × α → α)
    (p : α × α) :
    ∀ (zs : List (Zone α)) (acc : List (Matched α)) (na : Option (Zone α)),
      (assessLoop D p zs acc (na.map fun z => (z, D p z.center))).2
        = (List.foldl (List.argAux fun b c => D p b.center < D p c.center) na
            zs).map fun z => (z, D p z.center) := by
  intro zs
  induction zs with
  | nil => intro acc na; simp [assessLoop]
  | cons z rest ih =>
    intro acc na
    cases na with
    | none =>
      simpa [assessLoop, List.argAux] using
        ih (if D p z.center ≤ z.radiusMeters then acc ++ [⟨z, D p z.center⟩]
            else acc) (some z)
    | some w =>
      have h := ih (if D p z.center ≤ z.radiusMeters
          then acc ++ [⟨z, D p z.center⟩] else acc)
        (if D p z.center < D p w.center then some z else some w)
      by_cases hlt : D p z.center < D p w.center <;>
        simp only [hlt, if_true, if_false, Option.map_some'] at h <;>
        simpa [assessLoop, List.argAux, hlt] using h

/-- The nearest-zone output of the engine is `List.argmin` of the distance
function, paired with its distance. -/
theorem assess_nearestZone_eq_argmin {α : Type} [LinearOrder α]
    (D : α × α → α × α → α) (p : α × α) (zones : List (Zone α)) :
    (assess D p zones).nearestZone
      = (zones.argmin fun z => D p z.center).map fun z => (z, D p z.center) := by
  have h := assessLoop_snd D p zones [] none
  simpa [assess, List.argmin] using h

/-- Characterisation of `maxSeverity` by the two any-scans the handler
performs. -/
theorem maxSeverity_eq_scan (l : List Risk) :
    maxSeverity l =
      if l.any fun r => r = .DANGER then .DANGER
      else if l.any fun r => r = .CAUTION then .CAUTION
      else .SAFE := by
  induction l with
  | nil => simp [maxSeverity]
  | cons r rest ih =>
    have hr : maxSeverity (r :: rest) = rmax r (maxSeverity rest) := rfl
    rw [hr, ih]
    cases r <;>
      rcases hD : rest.any fun r => r = Risk.DANGER <;>
        rcases hC : rest.any fun r => r = Risk.CAUTION <;>
          simp [rmax, Risk.sev, hD, hC]

/-- The handler's aggregate computation equals the severity maximum of the
matched zones' risk levels. -/
theorem aggregate_eq_maxSeverity {α : Type} (ms : List (Matched α)) :
    aggregate ms = maxSeverity (ms.map fun m => m.zone.riskLevel) := by
  rw [maxSeverity_eq_scan]
  simp [aggregate, List.any_map, Function.comp]

/-- For every distance function, coordinate `p` and zone sequence `Z`, the
assessment's matched list consists of exactly the zones whose computed
distance is at most their radius (inclusive boundary), in input order, each
paired with its computed distance. -/
theorem assess_activeZones_spec {α : Type} [LinearOrder α]
    (D : α × α → α × α → α) (p : α × α) (zones : List (Zone α)) :
    (assess D p zones).activeZones
      = (zones.filter fun z => isWithin D p z).map fun z => ⟨z, D p z.center⟩ := by
  have h := assessLoop_fst D p zones [] none
  simpa [assess, matchedSpec] using h

/-- For every distance function, coordinate `p` and zone sequence `Z`, the
assessment's aggregated `riskLevel` is the maximum severity
(DANGER > CAUTION > SAFE) among the zones of `Z` containing `p`, and is SAFE
when no zone contains `p`. -/
theorem assess_riskLevel_maxSeverity {α : Type} [LinearOrder α]
    (D : α × α → α × α → α) (p : α × α) (zones : List (Zone α)) :
    (assess D p zones).riskLevel
        = maxSeverity ((zones.filter fun z => isWithin D p z).map
            fun z => z.riskLevel)
      ∧ ((zones.filter fun z => isWithin D p z) = []
          → (assess D p zones).riskLevel = .SAFE) := by
  have hact := assess_activeZones_spec D p zones
  have hagg : (assess D p zones).riskLevel
      = aggregate (assess D p zones).activeZones := rfl
  constructor
  · rw [hagg, hact, aggregate_eq_maxSeverity]
    simp only [List.map_map, Function.comp_def]
  · intro hempty
    rw [hagg, hact, hempty]
    simp [aggregate]

/-- For every distance function, coordinate `p` and non-empty zone sequence
`Z`, the assessment's `nearestZone` is a zone of `Z` (with its
computed distance) whose distance is minimal over all of `Z` — matched or
not — and any tie is resolved in favour of the zone occurring first in the
input order. -/
theorem assess_nearestZone_first_min {α : Type} [LinearOrder α]
    (D : α × α → α × α → α) (p : α × α) (zones : List (Zone α))
    (hne : zones ≠ []) :
    ∃ m : Zone α,
      (assess D p zones).nearestZone = some (m, D p m.center)
        ∧ m ∈ zones
        ∧ (∀ z ∈ zones, D p m.center ≤ D p z.center)
        ∧ (∀ z ∈ zones, D p z.center ≤ D p m.center
            → zones.indexOf m ≤ zones.indexOf z) := by
  rcases hm : zones.argmin fun z => D p z.center with _ | m
  · exact absurd (List.argmin_eq_none.mp hm) hne
  · refine ⟨m, ?_, ?_⟩
    · rw [assess_nearestZone_eq_argmin, hm]
      rfl
    · have := List.argmin_eq_some_iff.mp hm
      exact ⟨this.1, this.2.1, this.2.2⟩

theorem distanceInMeters_eq (lat1 lng1 lat2 lng2 : ℝ) :
    distanceInMeters lat1 lng1 lat2 lng2
      = 6371000 * (2 * atan2nn (Real.sqrt (havA lat1 lng1 lat2 lng2))
          (Real.sqrt (1 - havA lat1 lng1 lat2 lng2))) := rfl

theorem havA_symm (lat1 lng1 lat2 lng2 : ℝ) :
    havA lat2 lng2 lat1 lng1 = havA lat1 lng1 lat2 lng2 := by
  unfold havA
  have h1 : toRad (lat1 - lat2) = -toRad (lat2 - lat1) := by unfold toRad; ring
  have h2 : toRad (lng1 - lng2) = -toRad (lng2 - lng1) := by unfold toRad; ring
  rw [h1, h2, neg_div, neg_div, Real.sin_neg, Real.sin_neg]
  ring

theorem havA_self (lat lng : ℝ) : havA lat lng lat lng = 0 := by
  unfold havA toRad
  simp

theorem atan2nn_nonneg {y x : ℝ} (hy : 0 ≤ y) (hx : 0 ≤ x) : 0 ≤ atan2nn y x := by
  unfold atan2nn
  split_ifs with hx0 hy0
  · exact le_refl 0
  · positivity
  · have hxpos : 0 < x := lt_of_le_of_ne hx (Ne.symm hx0)
    have h0 : Real.arctan 0 ≤ Real.arctan (y / x) :=
      Real.arctan_strictMono.monotone (div_nonneg hy hxpos.le)
    simpa [Real.arctan_zero] using h0

/-- C9: metric-style properties of the haversine distance — vanishing on the
diagonal, symmetry, and non-negativity. -/
theorem distanceInMeters_metric_props :
    (∀ lat lng : ℝ, distanceInMeters lat lng lat lng = 0)
      ∧ (∀ lat1 lng1 lat2 lng2 : ℝ,
          distanceInMeters lat1 lng1 lat2 lng2
            = distanceInMeters lat2 lng2 lat1 lng1)
      ∧ ∀ lat1 lng1 lat2 lng2 : ℝ, 0 ≤ distanceInMeters lat1 lng1 lat2 lng2 := by
  refine ⟨?_, ?_, ?_⟩
  · intro lat lng
    rw [distanceInMeters_eq, havA_self]
    norm_num [atan2nn, Real.arctan_zero]
  · intro lat1 lng1 lat2 lng2
    rw [distanceInMeters_eq, distanceInMeters_eq, havA_symm]
  · intro lat1 lng1 lat2 lng2
    rw [distanceInMeters_eq]
    have h := atan2nn_nonneg (Real.sqrt_nonneg (havA lat1 lng1 lat2 lng2))
      (Real.sqrt_nonneg (1 - havA lat1 lng1 lat2 lng2))
    positivity

/-- C6: once the event is durably recorded, a failure of the notification
dispatch is absorbed — the status is 200 and the response (and the persisted
event) is identical to the one produced when the dispatch succeeds; the
error never propagates to the caller. -/
theorem sos_notify_failure_absorbed (body : SosBody) (authId : Option String)
    (userRec : Option UserRec) (adminReady : Bool) (eid reason now : String)
    (lat lng : ℚ) (hlat : body.latitude = some lat)
    (hlng : body.longitude = some lng) :
    (sosPipeline body authId userRec adminReady (.ok eid) (.error reason)
        now).statusCode = 200
      ∧ (sosPipeline body authId userRec adminReady (.ok eid) (.error reason)
            now).response
        = (sosPipeline body authId userRec adminReady (.ok eid) (.ok ())
            now).response
      ∧ (sosPipeline body authId userRec adminReady (.ok eid) (.error reason)
            now).savedEvent
        = (sosPipeline body authId userRec adminReady (.ok eid) (.ok ())
            now).savedEvent := by
  refine ⟨?_, ?_, ?_⟩ <;> simp [sosPipeline, hlat, hlng]

/-- C7: a persistence failure is fatal — the request answers 500, no
notification dispatch is attempted, and no event exists from the system's
point of view. -/
theorem sos_persistence_failure_fatal (body : SosBody) (authId : Option String)
    (userRec : Option UserRec) (adminReady : Bool) (e now : String)
    (push : Except String Unit) (lat lng : ℚ)
    (hlat : body.latitude = some lat) (hlng : body.longitude = some lng) :
    (sosPipeline body authId userRec adminReady (.error e) push
        now).statusCode = 500
      ∧ (sosPipeline body authId userRec adminReady (.error e) push
          now).pushAttempted = false
      ∧ (sosPipeline body authId userRec adminReady (.error e) push
          now).savedEvent = none := by
  refine ⟨?_, ?_, ?_⟩ <;> simp [sosPipeline, hlat, hlng]

/-- C8: a valid SOS from a user with no `pushToken` on file is a success:
the event is recorded (its identifier is returned), no dispatch occurs, and
the notifier outcome is skipped-no-target, not an error. -/
theorem sos_no_pushToken_skipped (body : SosBody) (authId : Option String)
    (u : UserRec) (adminReady : Bool) (eid now : String)
    (push : Except String Unit) (lat lng : ℚ)
    (hlat : body.latitude = some lat) (hlng : body.longitude = some lng)
    (htok : u.pushToken = none) :
    (sosPipeline body authId (some u) adminReady (.ok eid) push
        now).statusCode = 200
      ∧ (sosPipeline body authId (some u) adminReady (.ok eid) push
          now).notify = some .skippedNoTarget
      ∧ (sosPipeline body authId (some u) adminReady (.ok eid) push
          now).pushAttempted = false
      ∧ (sosPipeline body authId (some u) adminReady (.ok eid) push
          now).savedEvent
        = some (mkEmergencyDoc body authId lat lng now)
      ∧ (sosPipeline body authId (some u) adminReady (.ok eid) push
          now).responseId = some eid := by
  refine ⟨?_, ?_, ?_, ?_, ?_⟩ <;>
    simp [sosPipeline, SosResult.responseId, hlat, hlng, htok, truthyStr]

/-- C10: for an authenticated SOS request (verified token carrying a
non-empty user id, as every token this server signs does — see
`routes/auth.js`, payload `{ user: { id } }`), the persisted event is
attributed to the token's user id, and the request body's `userId` field
never influences the persisted attribution. -/
theorem sos_attribution_from_token (body : SosBody) (uid : String)
    (userRec : Option UserRec) (adminReady : Bool) (eid now : String)
    (push : Except String Unit) (lat lng : ℚ)
    (hlat : body.latitude = some lat) (hlng : body.longitude = some lng)
    (huid : uid ≠ "") :
    ((sosPipeline body (some uid) userRec adminReady (.ok eid) push
        now).savedEvent.map fun d => d.user) = some (some uid)
      ∧ ∀ w : Option String,
        ((sosPipeline { body with userId := w } (some uid) userRec adminReady
            (.ok eid) push now).savedEvent.map fun d => d.user)
          = ((sosPipeline body (some uid) userRec adminReady (.ok eid) push
              now).savedEvent.map fun d => d.user) := by
  have hj : ∀ w : Option String, jsOrStr (some uid) w = some uid := by
    intro w; simp [jsOrStr, truthyStr, huid]
  constructor
  · simp [sosPipeline, hlat, hlng, mkEmergencyDoc, hj]
  · intro w
    simp [sosPipeline, hlat, hlng, mkEmergencyDoc, hj]

/-- C2 fails on the code: latitude 1000 lies far outside [-90, 90], yet the
SOS handler accepts the request — the response is 200, not a 400-class
rejection, and the event is persisted, a durable side effect. -/
theorem sos_out_of_range_accepted :
    (sosPipeline ⟨some 1000, some 0, none, none, none, none, none⟩
        (some "u1") none false (.ok "e1") (.ok ()) "t").statusCode = 200
      ∧ (sosPipeline ⟨some 1000, some 0, none, none, none, none, none⟩
          (some "u1") none false (.ok "e1") (.ok ()) "t").savedEvent
        = some (mkEmergencyDoc ⟨some 1000, some 0, none, none, none, none, none⟩
            (some "u1") 1000 0 "t") := by
  constructor <;> rfl

/-- C2 amended: the pipeline rejects exactly the requests whose latitude or
longitude is missing or not a number (400, before any side effect — nothing
saved, no dispatch attempted); numeric coordinates are never range-checked,
and out-of-range values are persisted unchanged rather than clamped. -/
theorem sos_validation_is_type_check_only (body : SosBody)
    (authId : Option String) (userRec : Option UserRec) (adminReady : Bool)
    (save : Except String String) (push : Except String Unit) (now : String) :
    ((body.latitude = none ∨ body.longitude = none) →
        (sosPipeline body authId userRec adminReady save push
            now).statusCode = 400
          ∧ (sosPipeline body authId userRec adminReady save push
              now).savedEvent = none
          ∧ (sosPipeline body authId userRec adminReady save push
              now).pushAttempted = false)
      ∧ ∀ (lat lng : ℚ) (eid : String),
          body.latitude = some lat → body.longitude = some lng →
          save = .ok eid →
          ((sosPipeline body authId userRec adminReady save push
              now).savedEvent.map fun d => d.location) = some (lat, lng) := by
  constructor
  · rintro (h | h)
    · cases hlng : body.longitude <;>
        refine ⟨?_, ?_, ?_⟩ <;> simp [sosPipeline, h, hlng]
    · cases hlat : body.latitude <;>
        refine ⟨?_, ?_, ?_⟩ <;> simp [sosPipeline, h, hlat]
  · intro lat lng eid hlat hlng hsave
    simp [sosPipeline, hlat, hlng, hsave, mkEmergencyDoc]

/-- C3 fails on the code: with an empty zone store and request point
(10, 10), the handler substitutes the demo zone and reports it as
`nearestZone`, which is therefore not null as the claim requires. -/
theorem assess_empty_store_nearest_not_null :
    (assessHandler [] { latitude := some 10, longitude := some 10 }).nearestIsSome
      = true := by
  rfl

theorem sin_le_self {x : ℝ} (hx : 0 ≤ x) : Real.sin x ≤ x := by
  rcases eq_or_lt_of_le hx with h | h
  · simp [← h]
  · exact (Real.sin_lt h).le

theorem arctan_nonneg_of {v : ℝ} (hv : 0 ≤ v) : 0 ≤ Real.arctan v := by
  have h := Real.arctan_strictMono.monotone hv
  simpa [Real.arctan_zero] using h

theorem arctan_lower {v : ℝ} (hv : 0 ≤ v) :
    v / Real.sqrt (1 + v ^ 2) ≤ Real.arctan v := by
  have h1 : Real.sin (Real.arctan v) ≤ Real.arctan v :=
    sin_le_self (arctan_nonneg_of hv)
  rwa [Real.sin_arctan] at h1

theorem sin_small_bounds :
    (436:ℝ)/10^7 < Real.sin (Real.pi / 72000)
      ∧ Real.sin (Real.pi / 72000) < (4375:ℝ)/10^8 := by
  have hpi_lo : (3.14:ℝ) < Real.pi := Real.pi_gt_d2
  have hpi_hi : Real.pi < (3.15:ℝ) := Real.pi_lt_d2
  have hx_pos : 0 < Real.pi / 72000 := by positivity
  have hx_le1 : Real.pi / 72000 ≤ 1 := by nlinarith
  have hcube := Real.sin_gt_sub_cube hx_pos hx_le1
  have hlin := Real.sin_lt hx_pos
  constructor
  · nlinarith [sq_nonneg (Real.pi / 72000)]
  · nlinarith
/-- For `1.9e-9 < a < 4e-9` the non-negative-quadrant `atan2` of
`(sqrt a, sqrt (1 - a))` exceeds `3.9e-5` radians. -/
theorem atan2nn_far {a : ℝ} (halo : (19:ℝ)/10^10 < a) (hahi : a < (4:ℝ)/10^9) :
    (39:ℝ)/10^6 < atan2nn (Real.sqrt a) (Real.sqrt (1 - a)) := by
  have ha_pos : 0 < a := by linarith
  have hx_pos : 0 < Real.sqrt (1 - a) := Real.sqrt_pos.mpr (by linarith)
  rw [atan2nn, if_neg hx_pos.ne']
  have hv_nonneg : 0 ≤ Real.sqrt a := Real.sqrt_nonneg a
  have hv_sq : Real.sqrt a ^ 2 = a := Real.sq_sqrt ha_pos.le
  have hv_lo : (435:ℝ)/10^7 < Real.sqrt a :=
    (Real.lt_sqrt (by norm_num)).mpr (by nlinarith)
  have hden_le1 : Real.sqrt (1 - a) ≤ 1 := by
    have h := Real.sqrt_le_sqrt (show (1:ℝ) - a ≤ 1 by linarith)
    rwa [Real.sqrt_one] at h
  have harg : Real.sqrt a ≤ Real.sqrt a / Real.sqrt (1 - a) := by
    rw [le_div_iff₀ hx_pos]
    exact mul_le_of_le_one_right hv_nonneg hden_le1
  have hθ1 := Real.arctan_strictMono.monotone harg
  have hθ2 := arctan_lower hv_nonneg
  have hden_hi : Real.sqrt (1 + Real.sqrt a ^ 2) < (11:ℝ)/10 := by
    rw [Real.sqrt_lt' (by norm_num : (0:ℝ) < 11/10)]
    nlinarith
  have hden_pos : 0 < Real.sqrt (1 + Real.sqrt a ^ 2) :=
    Real.sqrt_pos.mpr (by nlinarith)
  have hnum : (39:ℝ)/10^6 < Real.sqrt a / Real.sqrt (1 + Real.sqrt a ^ 2) := by
    rw [lt_div_iff₀ hden_pos]
    nlinarith
  linarith

/-- The haversine intermediate value for the `(+0.005°, +0.005°)` offset lies
strictly between `1.9e-9` and `4e-9`, at every latitude. -/
theorem havA_offset_bounds (lat lng : ℝ) :
    (19:ℝ)/10^10 < havA lat lng (lat + 0.005) (lng + 0.005)
      ∧ havA lat lng (lat + 0.005) (lng + 0.005) < (4:ℝ)/10^9 := by
  obtain ⟨hs_lo, hs_hi⟩ := sin_small_bounds
  have hs_pos : (0:ℝ) < Real.sin (Real.pi / 72000) := by linarith
  have hhalf : toRad 0.005 / 2 = Real.pi / 72000 := by unfold toRad; ring
  have hA : havA lat lng (lat + 0.005) (lng + 0.005)
      = Real.sin (Real.pi / 72000) ^ 2
        * (1 + Real.cos (toRad lat) * Real.cos (toRad (lat + 0.005))) := by
    unfold havA
    rw [show lat + 0.005 - lat = (0.005:ℝ) by ring,
      show lng + 0.005 - lng = (0.005:ℝ) by ring, hhalf]
    ring
  have hsplit : toRad (lat + 0.005) = toRad lat + toRad 0.005 := by
    unfold toRad; ring
  have hcost : Real.cos (toRad 0.005)
      = 1 - 2 * Real.sin (Real.pi / 72000) ^ 2 := by
    rw [show toRad 0.005 = 2 * (Real.pi / 72000) by unfold toRad; ring,
      Real.cos_two_mul']
    linarith [Real.sin_sq_add_cos_sq (Real.pi / 72000)]
  have h1 : Real.cos (2 * toRad lat + toRad 0.005)
      = Real.cos (toRad lat + toRad 0.005) * Real.cos (toRad lat)
        - Real.sin (toRad lat + toRad 0.005) * Real.sin (toRad lat) := by
    rw [show 2 * toRad lat + toRad 0.005
        = (toRad lat + toRad 0.005) + toRad lat by ring, Real.cos_add]
  have h2 : Real.cos (toRad 0.005)
      = Real.cos (toRad lat + toRad 0.005) * Real.cos (toRad lat)
        + Real.sin (toRad lat + toRad 0.005) * Real.sin (toRad lat) := by
    have h := Real.cos_sub (toRad lat + toRad 0.005) (toRad lat)
    rw [show toRad lat + toRad 0.005 - toRad lat = toRad 0.005 by ring] at h
    exact h
  have hPlo : -(Real.sin (Real.pi / 72000) ^ 2)
      ≤ Real.cos (toRad lat) * Real.cos (toRad (lat + 0.005)) := by
    rw [hsplit]
    nlinarith [h1, h2, hcost,
      Real.neg_one_le_cos (2 * toRad lat + toRad 0.005)]
  have hPhi : Real.cos (toRad lat) * Real.cos (toRad (lat + 0.005)) ≤ 1 := by
    nlinarith [Real.neg_one_le_cos (toRad lat), Real.cos_le_one (toRad lat),
      Real.neg_one_le_cos (toRad (lat + 0.005)),
      Real.cos_le_one (toRad (lat + 0.005))]
  have hq_pos : (0:ℝ) < Real.sin (Real.pi / 72000) ^ 2 := by positivity
  have hsq_lo : (19009:ℝ)/10^13 < Real.sin (Real.pi / 72000) ^ 2 := by
    nlinarith [mul_lt_mul_of_pos_left hs_lo hs_pos,
      mul_lt_mul_of_pos_right hs_lo (show (0:ℝ) < 436/10^7 by norm_num)]
  have hsq_hi : Real.sin (Real.pi / 72000) ^ 2 < (1915:ℝ)/10^12 := by
    nlinarith [mul_lt_mul_of_pos_left hs_hi hs_pos,
      mul_lt_mul_of_pos_right hs_hi (show (0:ℝ) < 4375/10^8 by norm_num)]
  constructor
  · rw [hA]
    nlinarith [mul_le_mul_of_nonneg_left hPlo
        (sq_nonneg (Real.sin (Real.pi / 72000))),
      mul_lt_mul_of_pos_left hsq_hi hq_pos,
      mul_lt_mul_of_pos_right hsq_hi (show (0:ℝ) < 1915/10^12 by norm_num)]
  · rw [hA]
    nlinarith [mul_le_mul_of_nonneg_left hPhi
      (sq_nonneg (Real.sin (Real.pi / 72000)))]

/-- The demo zone's centre, offset `(+0.005°, +0.005°)` from the request
point, is always strictly more than 400 m away under the haversine
distance, so the demo zone never contains the request point. -/
theorem demoZone_distance_gt_400 (lat lng : ℝ) :
    400 < distanceInMeters lat lng (lat + 0.005) (lng + 0.005) := by
  obtain ⟨halo, hahi⟩ := havA_offset_bounds lat lng
  have h := atan2nn_far halo hahi
  rw [distanceInMeters_eq]
  linarith


/-- C3 amended: with an empty zone store, an assessment request still
succeeds with `riskLevel = SAFE` and an empty matched list (the synthetic
demo zone is more than 400 m away, hence never matched), but `nearestZone`
is the substituted demo zone with its computed distance, not null. -/
theorem assess_empty_store_amended (lat lng : ℝ) :
    assessHandler [] { latitude := some lat, longitude := some lng }
      = .ok .SAFE []
          (some (demoZone lat lng,
            distCoord (lat, lng) (demoZone lat lng).center))
          (lat, lng) := by
  have hfar : 400 < distCoord (lat, lng) (demoZone lat lng).center := by
    simpa [distCoord, demoZone] using demoZone_distance_gt_400 lat lng
  have hnot : ¬ distCoord (lat, lng) (demoZone lat lng).center
      ≤ (demoZone lat lng).radiusMeters := by
    simp only [demoZone]
    intro hle
    exact absurd hle (by exact not_le.mpr hfar)
  simp [assessHandler, fallbackZones, assess, assessLoop, aggregate, hnot]

/-- C1: for every coordinate `p` and zone sequence `Z`, the assessment's
aggregated `riskLevel` equals the maximum severity (DANGER > CAUTION > SAFE)
among the zones of `Z` that contain `p` under the haversine distance, and
equals SAFE when no zone of `Z` contains `p`. -/
theorem assess_riskLevel_max_severity_haversine (p : ℝ × ℝ)
    (zones : List (Zone ℝ)) :
    (assess distCoord p zones).riskLevel
        = maxSeverity ((zones.filter fun z => isWithin distCoord p z).map
            fun z => z.riskLevel)
      ∧ ((zones.filter fun z => isWithin distCoord p z) = []
          → (assess distCoord p zones).riskLevel = .SAFE) :=
  assess_riskLevel_maxSeverity distCoord p zones

/-- C5: for every coordinate `p` and zone sequence `Z`, the assessment's
matched-zones list contains exactly the zones of `Z` whose haversine
distance to their centre is at most their radius (inclusive boundary), in
input order, each paired with its computed distance. -/
theorem assess_activeZones_matched_haversine (p : ℝ × ℝ)
    (zones : List (Zone ℝ)) :
    (assess distCoord p zones).activeZones
      = (zones.filter fun z => isWithin distCoord p z).map
          fun z => ⟨z, distCoord p z.center⟩ :=
  assess_activeZones_spec distCoord p zones

/-- C4: for every coordinate `p` and non-empty zone sequence `Z`, the
assessment's `nearestZone` is a zone of `Z` minimising the haversine
distance to its centre over all of `Z` — matched or not — with ties broken
in favour of the zone occurring first in the input order. -/
theorem assess_nearestZone_first_min_haversine (p : ℝ × ℝ)
    (zones : List (Zone ℝ)) (hne : zones ≠ []) :
    ∃ m : Zone ℝ,
      (assess distCoord p zones).nearestZone = some (m, distCoord p m.center)
        ∧ m ∈ zones
        ∧ (∀ z ∈ zones, distCoord p m.center ≤ distCoord p z.center)
        ∧ (∀ z ∈ zones, distCoord p z.center ≤ distCoord p m.center
            → zones.indexOf m ≤ zones.indexOf z) :=
  assess_nearestZone_first_min distCoord p zones hne

/-- Witness for C4 at a concrete input: a one-zone store. -/
theorem assess_nearestZone_first_min_haversine_witness :
    ([demoZone 0 0] : List (Zone ℝ)) ≠ []
      ∧ ∃ m : Zone ℝ,
          (assess distCoord ((0:ℝ), (0:ℝ)) [demoZone 0 0]).nearestZone
              = some (m, distCoord (0, 0) m.center)
            ∧ m ∈ [demoZone 0 0]
            ∧ (∀ z ∈ [demoZone 0 0],
                distCoord (0, 0) m.center ≤ distCoord (0, 0) z.center)
            ∧ (∀ z ∈ [demoZone 0 0],
                distCoord (0, 0) z.center ≤ distCoord (0, 0) m.center
                  → ([demoZone 0 0] : List (Zone ℝ)).indexOf m
                      ≤ [demoZone 0 0].indexOf z) :=
  ⟨by simp, assess_nearestZone_first_min_haversine (0, 0) [demoZone 0 0]
    (by simp)⟩

/-- Witness for C6 at a concrete input. -/
theorem sos_notify_failure_absorbed_witness :
    (sosPipeline wbody (some "u1") (some wuser) true (.ok "e1")
        (.error "boom") "t0").statusCode = 200
      ∧ (sosPipeline wbody (some "u1") (some wuser) true (.ok "e1")
            (.error "boom") "t0").response
        = (sosPipeline wbody (some "u1") (some wuser) true (.ok "e1")
            (.ok ()) "t0").response
      ∧ (sosPipeline wbody (some "u1") (some wuser) true (.ok "e1")
            (.error "boom") "t0").savedEvent
        = (sosPipeline wbody (some "u1") (some wuser) true (.ok "e1")
            (.ok ()) "t0").savedEvent :=
  sos_notify_failure_absorbed wbody (some "u1") (some wuser) true "e1" "boom"
    "t0" 1 2 rfl rfl

/-- Witness for C7 at a concrete input. -/
theorem sos_persistence_failure_fatal_witness :
    (sosPipeline wbody (some "u1") (some wuser) true (.error "db down")
        (.ok ()) "t0").statusCode = 500
      ∧ (sosPipeline wbody (some "u1") (some wuser) true (.error "db down")
          (.ok ()) "t0").pushAttempted = false
      ∧ (sosPipeline wbody (some "u1") (some wuser) true (.error "db down")
          (.ok ()) "t0").savedEvent = none :=
  sos_persistence_failure_fatal wbody (some "u1") (some wuser) true "db down"
    "t0" (.ok ()) 1 2 rfl rfl

/-- Witness for C8 at a concrete input. -/
theorem sos_no_pushToken_skipped_witness :
    (sosPipeline wbody (some "u1") (some wuser) true (.ok "e1") (.ok ())
        "t0").statusCode = 200
      ∧ (sosPipeline wbody (some "u1") (some wuser) true (.ok "e1") (.ok ())
          "t0").notify = some .skippedNoTarget
      ∧ (sosPipeline wbody (some "u1") (some wuser) true (.ok "e1") (.ok ())
          "t0").pushAttempted = false
      ∧ (sosPipeline wbody (some "u1") (some wuser) true (.ok "e1") (.ok ())
          "t0").savedEvent = some (mkEmergencyDoc wbody (some "u1") 1 2 "t0")
      ∧ (sosPipeline wbody (some "u1") (some wuser) true (.ok "e1") (.ok ())
          "t0").responseId = some "e1" :=
  sos_no_pushToken_skipped wbody (some "u1") wuser true "e1" "t0" (.ok ())
    1 2 rfl rfl rfl

/-- Witness for C10 at a concrete input. -/
theorem sos_attribution_from_token_witness :
    ((sosPipeline wbody (some "u1") (some wuser) true (.ok "e1") (.ok ())
        "t0").savedEvent.map fun d => d.user) = some (some "u1")
      ∧ ∀ w : Option String,
        ((sosPipeline { wbody with userId := w } (some "u1") (some wuser)
            true (.ok "e1") (.ok ()) "t0").savedEvent.map fun d => d.user)
          = ((sosPipeline wbody (some "u1") (some wuser) true (.ok "e1")
              (.ok ()) "t0").savedEvent.map fun d => d.user) :=
  sos_attribution_from_token wbody "u1" (some wuser) true "e1" "t0" (.ok ())
    1 2 rfl rfl (by decide)

/-- Witness for the amended C2 at concrete inputs: a missing latitude is
rejected with no side effects, and an out-of-range latitude is persisted
unchanged. -/
theorem sos_validation_is_type_check_only_witness :
    ((sosPipeline wbodyBad (some "u1") none false (.ok "e1") (.ok ())
          "t0").statusCode = 400
        ∧ (sosPipeline wbodyBad (some "u1") none false (.ok "e1") (.ok ())
            "t0").savedEvent = none
        ∧ (sosPipeline wbodyBad (some "u1") none false (.ok "e1") (.ok ())
            "t0").pushAttempted = false)
      ∧ ((sosPipeline wbodyFar (some "u1") none false (.ok "e1") (.ok ())
          "t0").savedEvent.map fun d => d.location) = some (1000, 0) :=
  ⟨(sos_validation_is_type_check_only wbodyBad (some "u1") none false
      (.ok "e1") (.ok ()) "t0").1 (Or.inl rfl),
   (sos_validation_is_type_check_only wbodyFar (some "u1") none false
      (.ok "e1") (.ok ()) "t0").2 1000 0 "e1" rfl rfl rfl⟩

end SmartEmergency
